import Mathlib

/-!
Verification of the resource-query and analysis layer of the ibmcloud-vpc-mcp
repository (src/utils.py, src/storage.py, src/vpc_mcp_server.py).

Python dictionaries are embedded as insertion-ordered association lists over a
JSON-like value type `Val`.  Each manager method takes the outcome of its
remote call as an explicit argument (`Except Exc _`), where `Exc.isApi`
distinguishes the SDK's `ApiException` from any other exception; the
response-payload extraction performed inside the corresponding `try` block is
folded into that argument.
-/

namespace VpcMcp

/-- A Python/JSON value: `None`, booleans, integers, strings, lists and
string-keyed dictionaries (insertion-ordered association lists). -/
inductive Val where
  | vnull
  | vbool (b : Bool)
  | vint (n : Int)
  | vstr (s : String)
  | vlist (elems : List Val)
  | vdict (fields : List (String × Val))

/-- A Python dictionary with string keys. -/
abbrev Obj := List (String × Val)

/-- `d.get(k)`: the value of the first (hence, by dict semantics, only)
binding of `k`. -/
def dget (o : Obj) (k : String) : Option Val :=
  (o.find? (fun p => p.fst == k)).map Prod.snd

/-- `d.get(k, dflt)`. -/
def dgetD (o : Obj) (k : String) (dflt : Val) : Val :=
  (dget o k).getD dflt

/-- `k in d`. -/
def dcontains (o : Obj) (k : String) : Bool :=
  (dget o k).isSome

/-- `d[k]` subscription.  A missing key raises `KeyError` in Python; the
claims only exercise records where the key is present, so the model totalises
the miss to `None`. -/
def item (o : Obj) (k : String) : Val :=
  dgetD o k .vnull

/-- `v.get(k)` where `v` should be a dict.  Python raises `AttributeError` on
a non-dict receiver; the claims only exercise dict receivers. -/
def vget (v : Val) (k : String) : Option Val :=
  match v with
  | .vdict o => dget o k
  | _ => none

/-- `v.get(k, dflt)` on a nested value. -/
def vgetD (v : Val) (k : String) (dflt : Val) : Val :=
  (vget v k).getD dflt

/-- `v[k]` on a nested value. -/
def vitem (v : Val) (k : String) : Val :=
  vgetD v k .vnull

/-- `d[k] = v`: overwrite in place when the key exists, append otherwise
(CPython dicts keep the original insertion position on overwrite). -/
def dset (o : Obj) (k : String) (v : Val) : Obj :=
  if o.any (fun p => p.fst == k) then
    o.map (fun p => if p.fst == k then (k, v) else p)
  else o ++ [(k, v)]

/-- `x == s` for a string literal `s`: Python equality between a non-string
(or a missing value) and a string is `False`, never an error. -/
def vEqStr (v : Option Val) (s : String) : Bool :=
  match v with
  | some (.vstr t) => t == s
  | _ => false

/-- `d.get(k, dflt)` used in integer position (`port_min`/`port_max`).  A
present non-integer value would raise `TypeError` in the comparison in
Python; the claims only exercise absent keys and integer values. -/
def dgetInt (o : Obj) (k : String) (dflt : Int) : Int :=
  match dget o k with
  | some (.vint n) => n
  | _ => dflt

/-- The elements of a list value; a non-list is totalised to `[]` (Python
would raise when iterating the claims never do that). -/
def listItems (v : Val) : List Val :=
  match v with
  | .vlist xs => xs
  | _ => []

/-- The dict elements of a list value.  Non-dict elements would raise in the
Python loops that consume them; no claim exercises such elements. -/
def objItems (v : Val) : List Obj :=
  (listItems v).filterMap (fun x => match x with | .vdict o => some o | _ => none)

/-- An optional string argument as the value echoed in a `filters` block. -/
def ostr : Option String → Val
  | some s => .vstr s
  | none => .vnull

/-- An optional boolean argument as the value echoed in a `filters` block. -/
def obool : Option Bool → Val
  | some b => .vbool b
  | none => .vnull

/-- An exception: `isApi` is true for the SDK's `ApiException`, false for any
other exception; `msg` is `str(e)`. -/
structure Exc where
  isApi : Bool
  msg : String

/-- `str(v)` for scalar values as used in f-strings.  Container reprs are not
exercised by any claim. -/
def pyStrScalar : Val → String
  | .vstr s => s
  | .vint n => toString n
  | .vbool b => if b then "True" else "False"
  | .vnull => "None"
  | _ => ""

/-- Python truthiness of an optional value (`if x:`). -/
def pyTruthy : Option Val → Bool
  | none => false
  | some .vnull => false
  | some (.vbool b) => b
  | some (.vint n) => n != 0
  | some (.vstr s) => !s.isEmpty
  | some (.vlist xs) => !xs.isEmpty
  | some (.vdict fs) => !fs.isEmpty

/-! ### VPCManager.list_vpcs (src/utils.py lines 50-78) -/

/-- The per-region stamping loop of `list_vpcs`: `vpc['region'] = region_name`. -/
def stamp_region (r : String) (vpcs : List Obj) : List Obj :=
  vpcs.map (fun v => dset v "region" (.vstr r))

/-- The region loop of `list_vpcs`: an `ApiException` in one region is logged
and skipped; any other exception propagates (the `except` clause names only
`ApiException`). -/
def gather_vpcs (fetch : String → Except Exc (List Obj)) :
    List String → Except Exc (List Obj)
  | [] => .ok []
  | r :: rs =>
    match fetch r with
    | .ok vpcs => (gather_vpcs fetch rs).map (fun rest => stamp_region r vpcs ++ rest)
    | .error e => if e.isApi then gather_vpcs fetch rs else .error e

/-- `regions_to_check`: an explicit region argument wins; otherwise the cached
region list, refreshed through `list_regions` (whose result is the
`freshRegions` argument) when the cache is empty. -/
def regions_to_check : Option String → List String → List String → List String
  | some r, _, _ => [r]
  | none, cached, fresh => if cached.isEmpty then fresh else cached

/-- `VPCManager.list_vpcs`. `fetch r` is the outcome of
`service.list_vpcs().get_result()['vpcs']` in region `r`. -/
def list_vpcs (region : Option String) (cachedRegions freshRegions : List String)
    (fetch : String → Except Exc (List Obj)) : Except Exc Obj :=
  let regs := regions_to_check region cachedRegions freshRegions
  (gather_vpcs fetch regs).map (fun all_vpcs =>
    [("vpcs", .vlist (all_vpcs.map .vdict)),
     ("count", .vint all_vpcs.length),
     ("regions_checked", .vlist (regs.map .vstr))])

/-! ### Simple region-scoped listings (src/utils.py lines 87-232)

These methods have no `try` block: any exception of the remote call
propagates.  Each takes the successfully extracted resource list of the
remote response; the claims about them concern the success envelope. -/

/-- The VPC filter comprehension shared by `list_subnets`, `list_instances`,
`list_public_gateways` and `list_security_groups`:
`[x for x in xs if x['vpc']['id'] == vpc_id]`.  Python raises `KeyError` on a
record lacking `vpc`/`id`; the claims only exercise records that have them
(a malformed record compares unequal here). -/
def filter_by_vpc (xs : List Obj) (vpc_id : Option String) : List Obj :=
  match vpc_id with
  | some vid => xs.filter (fun x => vEqStr (vget (item x "vpc") "id") vid)
  | none => xs

/-- The per-record enhancement loop of `list_subnets`. -/
def enhance_subnet (region : String) (s : Obj) : Obj :=
  dset (dset (dset s "region" (.vstr region))
      "available_ipv4_address_count" (dgetD s "available_ipv4_address_count" (.vint 0)))
    "total_ipv4_address_count" (dgetD s "total_ipv4_address_count" (.vint 0))

/-- `VPCManager.list_subnets`. `subnets` is `response['subnets']`. -/
def list_subnets (region : String) (vpc_id : Option String) (subnets : List Obj) : Obj :=
  let subs := (filter_by_vpc subnets vpc_id).map (enhance_subnet region)
  [("subnets", .vlist (subs.map .vdict)),
   ("count", .vint subs.length),
   ("region", .vstr region),
   ("vpc_filter", ostr vpc_id)]

/-- The summary projection of `list_instances`: a fresh dict with exactly the
eight listed keys (note: no `region`). -/
def instance_summary (inst : Obj) : Obj :=
  [("id", item inst "id"),
   ("name", item inst "name"),
   ("status", item inst "status"),
   ("profile", vitem (item inst "profile") "name"),
   ("vpc", item inst "vpc"),
   ("zone", vitem (item inst "zone") "name"),
   ("primary_network_interface", .vdict
     [("id", vitem (item inst "primary_network_interface") "id"),
      ("primary_ipv4_address",
        vgetD (item inst "primary_network_interface") "primary_ipv4_address" .vnull)]),
   ("created_at", item inst "created_at")]

/-- `VPCManager.list_instances`. `instances` is `response['instances']`. -/
def list_instances (region : String) (vpc_id : Option String) (instances : List Obj) : Obj :=
  let summary := (filter_by_vpc instances vpc_id).map instance_summary
  [("instances", .vlist (summary.map .vdict)),
   ("count", .vint summary.length),
   ("region", .vstr region),
   ("vpc_filter", ostr vpc_id)]

/-- `VPCManager.list_public_gateways`: the gateway records are passed through
unmodified. -/
def list_public_gateways (region : String) (vpc_id : Option String)
    (gateways : List Obj) : Obj :=
  let gws := filter_by_vpc gateways vpc_id
  [("public_gateways", .vlist (gws.map .vdict)),
   ("count", .vint gws.length),
   ("region", .vstr region),
   ("vpc_filter", ostr vpc_id)]

/-- The summary projection of `list_security_groups` (note: no `region`). -/
def sg_summary (sg : Obj) : Obj :=
  [("id", item sg "id"),
   ("name", item sg "name"),
   ("vpc", item sg "vpc"),
   ("rules_count", .vint (listItems (dgetD sg "rules" (.vlist []))).length),
   ("created_at", item sg "created_at")]

/-- `VPCManager.list_security_groups`. `sgs` is `response['security_groups']`. -/
def list_security_groups (region : String) (vpc_id : Option String)
    (sgs : List Obj) : Obj :=
  let summary := (filter_by_vpc sgs vpc_id).map sg_summary
  [("security_groups", .vlist (summary.map .vdict)),
   ("count", .vint summary.length),
   ("region", .vstr region),
   ("vpc_filter", ostr vpc_id)]

/-! ### VPCManager.analyze_ssh_security_groups (src/utils.py lines 234-289) -/

/-- `isinstance(remote, dict) and remote.get('cidr_block') == cidr`. -/
def cidr_is (remote : Val) (cidr : String) : Bool :=
  match remote with
  | .vdict o => vEqStr (dget o "cidr_block") cidr
  | _ => false

/-- The per-rule SSH check: inbound tcp, port range (defaulting to
`[0, 65535]` for missing bounds) containing 22, remote CIDR exactly
`0.0.0.0/0`. -/
def risky_ssh_rule (rule : Obj) : Bool :=
  vEqStr (dget rule "protocol") "tcp" &&
  vEqStr (dget rule "direction") "inbound" &&
  (decide (dgetInt rule "port_min" 0 ≤ 22) &&
   decide ((22 : Int) ≤ dgetInt rule "port_max" 65535)) &&
  cidr_is (dgetD rule "remote" (.vdict [])) "0.0.0.0/0"

/-- `sg['id']` used as the rules-fetch key; the claims use string ids. -/
def sg_id_str (sg : Obj) : String :=
  match dget sg "id" with
  | some (.vstr s) => s
  | _ => ""

/-- The per-group loop of `analyze_ssh_security_groups`: a rules fetch that
raises `ApiException` is logged and the group skipped; any other exception
propagates (the `except` clause names only `ApiException`). -/
def ssh_scan (rulesFetch : String → Except Exc (List Obj)) :
    List Obj → Except Exc (List Obj)
  | [] => .ok []
  | sg :: rest =>
    match rulesFetch (sg_id_str sg) with
    | .ok rules =>
      let risky := rules.filter risky_ssh_rule
      (ssh_scan rulesFetch rest).map (fun acc =>
        if risky.isEmpty then acc
        else ([("security_group_id", item sg "id"),
               ("security_group_name", item sg "name"),
               ("vpc", item sg "vpc"),
               ("risky_rules", .vlist (risky.map .vdict)),
               ("rule_count", .vint risky.length)] : Obj) :: acc)
    | .error e => if e.isApi then ssh_scan rulesFetch rest else .error e

/-- `VPCManager.analyze_ssh_security_groups`.  `security_groups` is the
successful outer `list_security_groups` payload (that call is not inside any
`try`); `rulesFetch` gives each group's `list_security_group_rules` payload. -/
def analyze_ssh_security_groups (region : String) (vpc_id : Option String)
    (security_groups : List Obj) (rulesFetch : String → Except Exc (List Obj)) :
    Except Exc Obj :=
  (ssh_scan rulesFetch (filter_by_vpc security_groups vpc_id)).map (fun risky_groups =>
    [("risky_security_groups", .vlist (risky_groups.map .vdict)),
     ("count", .vint risky_groups.length),
     ("region", .vstr region),
     ("vpc_filter", ostr vpc_id),
     ("analysis_type", .vstr "SSH access from 0.0.0.0/0")])

/-! ### VPCManager.list_routing_tables (src/utils.py lines 375-459) -/

/-- Whether `pat` is a prefix of `s` (over character lists). -/
def charsPrefix : List Char → List Char → Bool
  | [], _ => true
  | _ :: _, [] => false
  | a :: pa, b :: sb => a == b && charsPrefix pa sb

/-- Whether `pat` occurs as a contiguous substring of `s`. -/
def charsInfix (pat : List Char) : List Char → Bool
  | [] => charsPrefix pat []
  | c :: rest => charsPrefix pat (c :: rest) || charsInfix pat rest

/-- Python's `pat in s` on strings (including `"" in s == True`). -/
def strContains (s pat : String) : Bool :=
  charsInfix pat.data s.data

/-- `s.lower()` (ASCII case folding, which is all the region/table names
exercise). -/
def lowerStr (s : String) : String :=
  String.mk (s.data.map Char.toLower)

/-- One subnet entry of a routing table's `subnets` enhancement. -/
def norm_subnet (s : Val) : Val :=
  .vdict [("id", vgetD s "id" (.vstr "unknown")),
          ("name", vgetD s "name" (.vstr "unknown")),
          ("href", vgetD s "href" (.vstr "unknown"))]

/-- The `table_info` projection of `list_routing_tables` (note: no
`region`).  `subnets` is added only when present and truthy (nonempty);
`routes_count` whenever `routes` is present.  A present non-list value in
either position would raise in Python (`for`/`len`), which the surrounding
bare `except` turns into the error envelope; no claim exercises that. -/
def table_info (t : Obj) : Obj :=
  let base : Obj :=
    [("id", dgetD t "id" (.vstr "unknown")),
     ("name", dgetD t "name" (.vstr "unknown")),
     ("vpc", dgetD t "vpc" (.vdict [])),
     ("is_default", dgetD t "is_default" (.vbool false)),
     ("lifecycle_state", dgetD t "lifecycle_state" (.vstr "unknown")),
     ("resource_group", dgetD t "resource_group" (.vdict [])),
     ("created_at", dgetD t "created_at" (.vstr "unknown")),
     ("href", dgetD t "href" (.vstr "unknown")),
     ("route_direct_link_ingress", dgetD t "route_direct_link_ingress" (.vbool false)),
     ("route_transit_gateway_ingress", dgetD t "route_transit_gateway_ingress" (.vbool false)),
     ("route_vpc_zone_ingress", dgetD t "route_vpc_zone_ingress" (.vbool false))]
  let base :=
    match dget t "subnets" with
    | some (.vlist (s :: ss)) => base ++ [("subnets", .vlist ((s :: ss).map norm_subnet))]
    | _ => base
  match dget t "routes" with
  | some (.vlist rs) => base ++ [("routes_count", .vint rs.length)]
  | _ => base

/-- The client-side name filter: keep tables whose lower-cased name contains
the lower-cased query.  A table whose normalized `name` is not a string
would raise `AttributeError` on `.lower()` in Python; no claim exercises
that. -/
def name_matches (rt : Obj) (n : String) : Bool :=
  match dget rt "name" with
  | some (.vstr s) => strContains (lowerStr s) (lowerStr n)
  | _ => false

/-- `if name: routing_tables = [rt for rt in routing_tables if ...]` — the
filter applies only when `name` is truthy (present and nonempty). -/
def name_filter (name : Option String) (tables : List Obj) : List Obj :=
  match name with
  | some n => if n.isEmpty then tables else tables.filter (fun rt => name_matches rt n)
  | none => tables

/-- `VPCManager.list_routing_tables`.  `fetched` is the outcome of the remote
call together with `response.get('routing_tables', [])`; the bare
`except Exception` converts any failure into the error envelope `{error,
region, routing_tables: [], count: 0}`.  `start`/`limit` only shape the
remote call and are omitted. -/
def list_routing_tables (region vpc_id : String) (is_default : Option Bool)
    (name : Option String) (fetched : Except Exc (List Obj)) : Obj :=
  match fetched with
  | .error e =>
    [("error", .vstr e.msg),
     ("region", .vstr region),
     ("routing_tables", .vlist []),
     ("count", .vint 0)]
  | .ok response_tables =>
    let routing_tables := name_filter name (response_tables.map table_info)
    [("routing_tables", .vlist (routing_tables.map .vdict)),
     ("count", .vint routing_tables.length),
     ("region", .vstr region),
     ("filters", .vdict [("vpc_id", .vstr vpc_id),
                         ("is_default", obool is_default),
                         ("name", ostr name)])]

/-! ### VPCManager.find_routing_table_by_name (src/utils.py lines 531-599) -/

/-- `[table for table in matching_tables if table['name'] == name]`
(case-sensitive exact equality). -/
def exact_name_matches (tables : List Obj) (name : String) : List Obj :=
  tables.filter (fun t => vEqStr (dget t "name") name)

/-- The tie-break block of `find_routing_table_by_name` (src/utils.py lines
545-590), over the fetched `matching_tables`. -/
def find_tie_break (region vpc_id name : String) (matching_tables : List Obj) : Obj :=
  match matching_tables with
    | [] =>
      [("error", .vstr ("No routing table found with name '" ++ name ++ "' in VPC " ++ vpc_id)),
       ("region", .vstr region),
       ("vpc_id", .vstr vpc_id),
       ("name", .vstr name),
       ("found_count", .vint 0)]
    | _ =>
      match exact_name_matches matching_tables name with
      | [] =>
        [("warning", .vstr ("No exact match found for '" ++ name ++ "', returning partial matches")),
         ("region", .vstr region),
         ("vpc_id", .vstr vpc_id),
         ("name", .vstr name),
         ("found_count", .vint matching_tables.length),
         ("matches", .vlist (matching_tables.map .vdict))]
      | [m] =>
        [("region", .vstr region),
         ("vpc_id", .vstr vpc_id),
         ("name", .vstr name),
         ("found_count", .vint 1),
         ("match", .vdict m),
         ("id", item m "id")]
      | m :: ms =>
        [("warning", .vstr ("Multiple routing tables found with exact name '" ++ name ++ "'")),
         ("region", .vstr region),
         ("vpc_id", .vstr vpc_id),
         ("name", .vstr name),
         ("found_count", .vint (m :: ms).length),
         ("matches", .vlist ((m :: ms).map .vdict)),
         ("primary_match", .vdict m)]

/-- `VPCManager.find_routing_table_by_name`: fetch by substring filter, then
apply the exact-match tie-break policy.  The outer `try` cannot fire: the
inner `list_routing_tables` never raises. -/
def find_routing_table_by_name (region vpc_id name : String)
    (fetched : Except Exc (List Obj)) : Obj :=
  let tables_result := list_routing_tables region vpc_id none (some name) fetched
  if dcontains tables_result "error" then
    [("error", item tables_result "error"),
     ("region", .vstr region),
     ("vpc_id", .vstr vpc_id),
     ("name", .vstr name)]
  else
    find_tie_break region vpc_id name
      (objItems (dgetD tables_result "routing_tables" (.vlist [])))

/-! ### StorageManager.list_volumes / list_shares / list_snapshots
(src/storage.py lines 48-160, 362-463, 590-705)

All three wrap their body in a bare `except Exception` that returns the
error envelope `{error, region, <plural>: [], count: 0}`.  `fetched` is the
outcome of the remote call together with the `response.get('<plural>', [])`
extraction. -/

/-- One element of a volume's `attachments` enhancement. -/
def volume_attachment_info (a : Val) : Val :=
  .vdict
    [("id", vgetD a "id" (.vstr "unknown")),
     ("instance", .vdict
       [("id", vgetD (vgetD a "instance" (.vdict [])) "id" (.vstr "unknown")),
        ("name", vgetD (vgetD a "instance" (.vdict [])) "name" (.vstr "Unknown"))]),
     ("type", vgetD a "type" (.vstr "unknown")),
     ("status", vgetD a "status" (.vstr "unknown"))]

/-- The `volume_info` projection of `list_volumes` (note: no `region`). -/
def volume_info (v : Obj) : Obj :=
  let base : Obj :=
    [("id", dgetD v "id" (.vstr "unknown")),
     ("name", dgetD v "name" (.vstr "unknown")),
     ("status", dgetD v "status" (.vstr "unknown")),
     ("capacity", dgetD v "capacity" (.vint 0)),
     ("iops", dgetD v "iops" (.vint 0)),
     ("profile", .vdict [("name", vgetD (dgetD v "profile" (.vdict [])) "name" (.vstr "unknown"))]),
     ("encryption", dgetD v "encryption" .vnull),
     ("zone", .vdict [("name", vgetD (dgetD v "zone" (.vdict [])) "name" (.vstr "unknown"))]),
     ("created_at", dgetD v "created_at" (.vstr "unknown")),
     ("attachment_state", dgetD v "attachment_state" (.vstr "unattached"))]
  match dget v "volume_attachments" with
  | some (.vlist (a :: rest)) =>
    base ++ [("attachments", .vlist ((a :: rest).map volume_attachment_info))]
  | _ => base

/-- `StorageManager.list_volumes`. -/
def list_volumes (region : String)
    (attachment_state encryption name tag zone_name : Option String)
    (fetched : Except Exc (List Obj)) : Obj :=
  match fetched with
  | .error e =>
    [("error", .vstr e.msg), ("region", .vstr region),
     ("volumes", .vlist []), ("count", .vint 0)]
  | .ok vs =>
    let volumes := vs.map volume_info
    [("volumes", .vlist (volumes.map .vdict)),
     ("count", .vint volumes.length),
     ("region", .vstr region),
     ("filters", .vdict [("attachment_state", ostr attachment_state),
                         ("encryption", ostr encryption),
                         ("name", ostr name),
                         ("tag", ostr tag),
                         ("zone_name", ostr zone_name)])]

/-- One element of a share's `mount_targets` enhancement. -/
def mount_target_info (t : Val) : Val :=
  .vdict [("id", vgetD t "id" (.vstr "unknown")),
          ("name", vgetD t "name" .vnull),
          ("vpc", vgetD t "vpc" .vnull),
          ("subnet", vgetD t "subnet" .vnull)]

/-- The `share_info` projection of `list_shares` (note: no `region`). -/
def share_info (sh : Obj) : Obj :=
  let base : Obj :=
    [("id", dgetD sh "id" (.vstr "unknown")),
     ("name", dgetD sh "name" (.vstr "unknown")),
     ("status", dgetD sh "status" (.vstr "unknown")),
     ("size", dgetD sh "size" (.vint 0)),
     ("iops", dgetD sh "iops" (.vint 0)),
     ("profile", .vdict [("name", vgetD (dgetD sh "profile" (.vdict [])) "name" (.vstr "unknown"))]),
     ("zone", .vdict [("name", vgetD (dgetD sh "zone" (.vdict [])) "name" (.vstr "unknown"))]),
     ("created_at", dgetD sh "created_at" (.vstr "unknown")),
     ("crn", dgetD sh "crn" (.vstr "unknown")),
     ("resource_group", dgetD sh "resource_group" (.vdict [])),
     ("replication_role", dgetD sh "replication_role" .vnull),
     ("lifecycle_state", dgetD sh "lifecycle_state" .vnull)]
  match dget sh "mount_targets" with
  | some (.vlist (t :: rest)) =>
    base ++ [("mount_targets", .vlist ((t :: rest).map mount_target_info))]
  | _ => base

/-- `StorageManager.list_shares`. -/
def list_shares (region : String)
    (resource_group_id name sort replication_role : Option String)
    (fetched : Except Exc (List Obj)) : Obj :=
  match fetched with
  | .error e =>
    [("error", .vstr e.msg), ("region", .vstr region),
     ("shares", .vlist []), ("count", .vint 0)]
  | .ok ss =>
    let shares := ss.map share_info
    [("shares", .vlist (shares.map .vdict)),
     ("count", .vint shares.length),
     ("region", .vstr region),
     ("filters", .vdict [("resource_group_id", ostr resource_group_id),
                         ("name", ostr name),
                         ("sort", ostr sort),
                         ("replication_role", ostr replication_role)])]

/-- The `snapshot_info` projection of `list_snapshots` (note: no `region`).
The optional blocks are guarded by key presence only (`if 'x' in snapshot:`);
their inner `.get` accesses are modelled by `vgetD`. -/
def snapshot_info (sn : Obj) : Obj :=
  let base : Obj :=
    [("id", dgetD sn "id" (.vstr "unknown")),
     ("name", dgetD sn "name" (.vstr "unknown")),
     ("status", dgetD sn "status" (.vstr "unknown")),
     ("size", dgetD sn "size" (.vint 0)),
     ("minimum_capacity", dgetD sn "minimum_capacity" (.vint 0)),
     ("resource_group", dgetD sn "resource_group" (.vdict [])),
     ("created_at", dgetD sn "created_at" (.vstr "unknown")),
     ("crn", dgetD sn "crn" (.vstr "unknown")),
     ("encryption", dgetD sn "encryption" (.vdict [])),
     ("lifecycle_state", dgetD sn "lifecycle_state" (.vstr "unknown")),
     ("href", dgetD sn "href" (.vstr "unknown")),
     ("bootable", dgetD sn "bootable" (.vbool false))]
  let base :=
    match dget sn "source_volume" with
    | some sv =>
      base ++ [("source_volume", .vdict
        [("id", vgetD sv "id" (.vstr "unknown")),
         ("name", vgetD sv "name" (.vstr "unknown")),
         ("href", vgetD sv "href" (.vstr "unknown"))])]
    | none => base
  let base :=
    match dget sn "operating_system" with
    | some os =>
      base ++ [("operating_system", .vdict
        [("architecture", vgetD os "architecture" (.vstr "unknown")),
         ("family", vgetD os "family" (.vstr "unknown")),
         ("name", vgetD os "name" (.vstr "unknown")),
         ("vendor", vgetD os "vendor" (.vstr "unknown")),
         ("version", vgetD os "version" (.vstr "unknown"))])]
    | none => base
  let base :=
    match dget sn "backup_policy_plan" with
    | some bp =>
      base ++ [("backup_policy_plan", .vdict
        [("id", vgetD bp "id" (.vstr "unknown")),
         ("name", vgetD bp "name" (.vstr "unknown")),
         ("href", vgetD bp "href" (.vstr "unknown"))])]
    | none => base
  match dget sn "user_tags" with
  | some tags => base ++ [("user_tags", tags)]
  | none => base

/-- `StorageManager.list_snapshots`. -/
def list_snapshots (region : String)
    (name source_volume_id resource_group_id sort : Option String)
    (fetched : Except Exc (List Obj)) : Obj :=
  match fetched with
  | .error e =>
    [("error", .vstr e.msg), ("region", .vstr region),
     ("snapshots", .vlist []), ("count", .vint 0)]
  | .ok ss =>
    let snapshots := ss.map snapshot_info
    [("snapshots", .vlist (snapshots.map .vdict)),
     ("count", .vint snapshots.length),
     ("region", .vstr region),
     ("filters", .vdict [("name", ostr name),
                         ("source_volume_id", ostr source_volume_id),
                         ("resource_group_id", ostr resource_group_id),
                         ("sort", ostr sort)])]

/-! ### Backup-policy listings (src/utils.py lines 602-723)

These three catch only `ApiException` and re-raise it unmodified; any other
exception is not caught either, so every remote-call exception propagates to
the caller. -/

/-- `VPCManager.list_backup_policies`. -/
def list_backup_policies (region : String)
    (resource_group_id name tag : Option String)
    (fetched : Except Exc (List Obj)) : Except Exc Obj :=
  match fetched with
  | .error e => .error e
  | .ok ps =>
    let policies := ps.map (fun p => dset p "region" (.vstr region))
    .ok [("backup_policies", .vlist (policies.map .vdict)),
         ("count", .vint policies.length),
         ("region", .vstr region),
         ("filters", .vdict [("resource_group_id", ostr resource_group_id),
                             ("name", ostr name),
                             ("tag", ostr tag)])]

/-- `job.get('status', 'unknown')` used as a status-summary key; a non-string
status would be used as a raw dict key in Python, which no claim exercises. -/
def job_status_key (j : Obj) : String :=
  match dget j "status" with
  | some (.vstr s) => s
  | _ => "unknown"

/-- `status_summary[k] = status_summary.get(k, 0) + 1`. -/
def bump_status (acc : List (String × Nat)) (k : String) : List (String × Nat) :=
  if acc.any (fun p => p.fst == k) then
    acc.map (fun p => if p.fst == k then (p.fst, p.snd + 1) else p)
  else acc ++ [(k, 1)]

/-- The status-summary fold of `list_backup_policy_jobs`. -/
def status_summary_of (jobs : List Obj) : List (String × Nat) :=
  jobs.foldl (fun acc j => bump_status acc (job_status_key j)) []

/-- `VPCManager.list_backup_policy_jobs`.  Pagination/sort parameters only
shape the remote call and are omitted. -/
def list_backup_policy_jobs (backup_policy_id region : String)
    (status backup_policy_plan_id source_id : Option String)
    (fetched : Except Exc (List Obj)) : Except Exc Obj :=
  match fetched with
  | .error e => .error e
  | .ok js =>
    let jobs := js.map (fun j =>
      dset (dset j "region" (.vstr region)) "backup_policy_id" (.vstr backup_policy_id))
    .ok [("jobs", .vlist (jobs.map .vdict)),
         ("count", .vint jobs.length),
         ("backup_policy_id", .vstr backup_policy_id),
         ("region", .vstr region),
         ("status_summary", .vdict ((status_summary_of jobs).map
           (fun p => (p.fst, Val.vint p.snd)))),
         ("filters", .vdict [("status", ostr status),
                             ("backup_policy_plan_id", ostr backup_policy_plan_id),
                             ("source_id", ostr source_id)])]

/-- `VPCManager.list_backup_policy_plans`. -/
def list_backup_policy_plans (backup_policy_id region : String)
    (name : Option String) (fetched : Except Exc (List Obj)) : Except Exc Obj :=
  match fetched with
  | .error e => .error e
  | .ok ps =>
    let plans := ps.map (fun p =>
      dset (dset p "region" (.vstr region)) "backup_policy_id" (.vstr backup_policy_id))
    .ok [("plans", .vlist (plans.map .vdict)),
         ("count", .vint plans.length),
         ("backup_policy_id", .vstr backup_policy_id),
         ("region", .vstr region),
         ("filters", .vdict [("name", ostr name)])]

/-! ### analyze_security_rule_risk (src/utils.py lines 928-975) -/

/-- The fixed port→service table, in source order. -/
def risky_ports : List (Int × String) :=
  [(22, "SSH"), (23, "Telnet"), (3389, "RDP"), (1433, "SQL Server"),
   (3306, "MySQL"), (5432, "PostgreSQL"), (21, "FTP"), (25, "SMTP")]

/-- One iteration of the risky-ports loop over the accumulated
`(risk_factors, risk_level)` state. -/
def port_factor_step (pmin pmax : Int) (tcp : Bool)
    (acc : List String × String) (pr : Int × String) : List String × String :=
  if decide (pmin ≤ pr.fst) && decide (pr.fst ≤ pmax) && tcp then
    (acc.fst ++ ["Exposes " ++ pr.snd ++ " (port " ++ toString pr.fst ++ ")"],
     if (pr.fst == 22 || pr.fst == 23 || pr.fst == 3389) && acc.snd != "high" then "medium"
     else acc.snd)
  else acc

/-- The `port_range` display field: `"pmin-pmax"` when `rule.get('port_min')`
is truthy, `"all"` otherwise (so a present `port_min` of `0` also renders as
`"all"`, and an absent `port_max` renders as `"any"`). -/
def port_range_field (rule : Obj) : Val :=
  if pyTruthy (dget rule "port_min") then
    .vstr (pyStrScalar (dgetD rule "port_min" (.vstr "any")) ++ "-" ++
           pyStrScalar (dgetD rule "port_max" (.vstr "any")))
  else .vstr "all"

/-- `analyze_security_rule_risk`: pure risk scoring of a single rule. -/
def analyze_security_rule_risk (rule : Obj) : Obj :=
  let st :=
    if vEqStr (dget rule "direction") "inbound" then
      let st0 : List String × String :=
        if cidr_is (dgetD rule "remote" (.vdict [])) "0.0.0.0/0" then
          (["Source allows traffic from anywhere (0.0.0.0/0)"], "high")
        else ([], "low")
      let pmin := dgetInt rule "port_min" 0
      let pmax := dgetInt rule "port_max" 65535
      let tcp := vEqStr (dget rule "protocol") "tcp"
      let st1 := risky_ports.foldl (port_factor_step pmin pmax tcp) st0
      if decide (pmax - pmin > 1000) then
        (st1.fst ++ ["Very wide port range (" ++ toString pmin ++ "-" ++ toString pmax ++ ")"],
         if st1.snd == "low" then "medium" else st1.snd)
      else st1
    else ([], "low")
  [("rule_id", dgetD rule "id" .vnull),
   ("risk_level", .vstr st.snd),
   ("risk_factors", .vlist (st.fst.map .vstr)),
   ("protocol", dgetD rule "protocol" .vnull),
   ("direction", dgetD rule "direction" .vnull),
   ("port_range", port_range_field rule)]

/-! ### analyze_backup_policy_health (src/utils.py lines 978-1048) -/

/-- `j.get('status') == 'failed'`. -/
def failed_status (j : Obj) : Bool :=
  vEqStr (dget j "status") "failed"

/-- `analyze_backup_policy_health`.  The float comparisons
`failure_rate > 0.5` and `> 0.2` are translated to the exact integer tests
`2*failed > considered` and `5*failed > considered`: with at most 10
considered jobs every quotient and both literals are far enough from each
other that IEEE double rounding cannot flip either comparison.  The
wall-clock age of the newest job (`datetime.now()` minus its parsed
`created_at`) is the explicit argument `last_job_days_ago`; `none` models an
unparsable timestamp, whose `except: pass` skips that check.  `now` is the
`analysis_timestamp` string. -/
def analyze_backup_policy_health (policy : Obj) (jobs : List Obj)
    (last_job_days_ago : Option Int) (now : String) : Obj :=
  let st0 : Int × List String × List String := (100, [], [])
  let st1 :=
    if vEqStr (dget policy "lifecycle_state") "stable" then st0
    else (st0.1 - 30,
          st0.2.1 ++ ["Policy is in " ++
            pyStrScalar (dgetD policy "lifecycle_state" (.vstr "unknown")) ++ " state"],
          st0.2.2 ++ ["Ensure policy is in stable state"])
  let st4 :=
    if jobs.isEmpty then
      (st1.1 - 40,
       st1.2.1 ++ ["No backup jobs found"],
       st1.2.2 ++ ["Verify that backup schedules are active and resources are attached"])
    else
      let recent := jobs.take 10
      let failed := recent.filter failed_status
      let st2 :=
        if failed.isEmpty then st1
        else if 2 * failed.length > recent.length then
          (st1.1 - 30,
           st1.2.1 ++ ["High failure rate: " ++ toString failed.length ++ "/" ++
             toString recent.length ++ " recent jobs failed"],
           st1.2.2 ++ ["Investigate job failures and fix underlying issues"])
        else if 5 * failed.length > recent.length then
          (st1.1 - 15,
           st1.2.1 ++ ["Some recent failures: " ++ toString failed.length ++ "/" ++
             toString recent.length ++ " recent jobs failed"],
           st1.2.2 ++ ["Monitor job failures and address any issues"])
        else st1
      let st3 :=
        if recent.length < 5 then
          (st2.1 - 10,
           st2.2.1 ++ ["Few recent backup jobs"],
           st2.2.2 ++ ["Consider increasing backup frequency if appropriate"])
        else st2
      match last_job_days_ago with
      | some d =>
        if d > 7 then
          (st3.1 - 20,
           st3.2.1 ++ ["Last backup job was " ++ toString d ++ " days ago"],
           st3.2.2 ++ ["Check if backup schedule is still active"])
        else if d > 3 then
          (st3.1 - 10,
           st3.2.1 ++ ["Last backup job was " ++ toString d ++ " days ago"],
           st3.2.2)
        else st3
      | none => st3
  let status :=
    if st4.1 ≥ 80 then "healthy" else if st4.1 ≥ 60 then "warning" else "critical"
  [("health_score", .vint (max 0 st4.1)),
   ("status", .vstr status),
   ("issues", .vlist (st4.2.1.map .vstr)),
   ("recommendations", .vlist (st4.2.2.map .vstr)),
   ("analysis_timestamp", .vstr now)]

/-! ### get_vpn_server_client_configuration -/

/-- Strict UTF-8 decoding of a byte sequence, as `bytes.decode('utf-8')`:
rejects truncated sequences, stray continuation bytes, overlong encodings,
surrogates and code points above U+10FFFF. -/
def utf8Decode : List Nat → Option (List Char)
  | [] => some []
  | b0 :: rest =>
    if b0 < 0x80 then
      (utf8Decode rest).map (fun cs => Char.ofNat b0 :: cs)
    else if 0xC2 ≤ b0 && b0 ≤ 0xDF then
      match rest with
      | b1 :: rest1 =>
        if 0x80 ≤ b1 && b1 ≤ 0xBF then
          (utf8Decode rest1).map (fun cs => Char.ofNat ((b0 - 0xC0) * 64 + (b1 - 0x80)) :: cs)
        else none
      | [] => none
    else if 0xE0 ≤ b0 && b0 ≤ 0xEF then
      match rest with
      | b1 :: b2 :: rest2 =>
        let lo1 := if b0 == 0xE0 then 0xA0 else 0x80
        let hi1 := if b0 == 0xED then 0x9F else 0xBF
        if lo1 ≤ b1 && b1 ≤ hi1 && 0x80 ≤ b2 && b2 ≤ 0xBF then
          (utf8Decode rest2).map (fun cs =>
            Char.ofNat ((b0 - 0xE0) * 4096 + (b1 - 0x80) * 64 + (b2 - 0x80)) :: cs)
        else none
      | _ => none
    else if 0xF0 ≤ b0 && b0 ≤ 0xF4 then
      match rest with
      | b1 :: b2 :: b3 :: rest3 =>
        let lo1 := if b0 == 0xF0 then 0x90 else 0x80
        let hi1 := if b0 == 0xF4 then 0x8F else 0xBF
        if lo1 ≤ b1 && b1 ≤ hi1 && 0x80 ≤ b2 && b2 ≤ 0xBF && 0x80 ≤ b3 && b3 ≤ 0xBF then
          (utf8Decode rest3).map (fun cs =>
            Char.ofNat ((b0 - 0xF0) * 262144 + (b1 - 0x80) * 4096 +
              (b2 - 0x80) * 64 + (b3 - 0x80)) :: cs)
        else none
      | _ => none
    else none

/-- The base64 alphabet. -/
def b64chars : List Char :=
  "ABCDEFGHIJKLMNOPQRSTUVWXYZabcdefghijklmnopqrstuvwxyz0123456789+/".toList

/-- The base64 digit for a 6-bit value. -/
def b64char (n : Nat) : Char :=
  b64chars.getD n 'A'

/-- Standard base64 encoding with `=` padding, as `base64.b64encode`. -/
def b64encode : List Nat → List Char
  | a :: b :: c :: rest =>
    b64char (a / 4) :: b64char (a % 4 * 16 + b / 16) ::
    b64char (b % 16 * 4 + c / 64) :: b64char (c % 64) :: b64encode rest
  | [a, b] => [b64char (a / 4), b64char (a % 4 * 16 + b / 16), b64char (b % 16 * 4), '=']
  | [a] => [b64char (a / 4), b64char (a % 4 * 16), '=', '=']
  | [] => []

/-- Modelled from the spec: `VPCManager.get_vpn_server_client_configuration`
is not part of src/ (only its tests in src/test_utils.py and its dispatch
caller in src/vpc_mcp_server.py are).  Per the spec's policy for this
endpoint: attempt a UTF-8 decode of the raw payload; on success return the
content with `encoding: "utf-8"`, on decode failure return the
base64-encoded raw bytes with `encoding: "base64"`; the metadata tag is
always present.  The result-dict keys follow the shape the tests pin down
(`vpn_server_id`, `region`, `client_configuration_content`, `metadata` with
`content_type: "openvpn_configuration"`). -/
def get_vpn_server_client_configuration (vpn_server_id region : String)
    (payload : List Nat) : Obj :=
  match utf8Decode payload with
  | some cs =>
    [("vpn_server_id", .vstr vpn_server_id),
     ("region", .vstr region),
     ("client_configuration_content", .vstr (String.mk cs)),
     ("metadata", .vdict [("content_type", .vstr "openvpn_configuration"),
                          ("encoding", .vstr "utf-8")])]
  | none =>
    [("vpn_server_id", .vstr vpn_server_id),
     ("region", .vstr region),
     ("client_configuration_content", .vstr (String.mk (b64encode payload))),
     ("metadata", .vdict [("content_type", .vstr "openvpn_configuration"),
                          ("encoding", .vstr "base64")])]

/-! ### Dictionary lemmas -/

theorem dget_cons (k₁ : String) (v₁ : Val) (os : Obj) (k : String) :
    dget ((k₁, v₁) :: os) k = if k₁ == k then some v₁ else dget os k := by
  simp only [dget, List.find?]
  cases h : (k₁ == k) <;> simp [h]

theorem dget_eq_none_of_not_any {o : Obj} {k : String}
    (h : o.any (fun p => p.fst == k) = false) : dget o k = none := by
  induction o with
  | nil => rfl
  | cons p os ih =>
    simp only [List.any_cons, Bool.or_eq_false_iff] at h
    rw [show p = (p.fst, p.snd) from rfl, dget_cons, if_neg (by simp_all)]
    exact ih h.2

theorem dget_append (o₁ o₂ : Obj) (k : String) :
    dget (o₁ ++ o₂) k = (dget o₁ k).orElse (fun _ => dget o₂ k) := by
  induction o₁ with
  | nil => rfl
  | cons p os ih =>
    rw [show p = (p.fst, p.snd) from rfl, List.cons_append, dget_cons, dget_cons]
    by_cases h : p.fst == k
    · simp [h, Option.orElse]
    · simp only [if_neg h]
      exact ih

theorem dget_dset_self (o : Obj) (k : String) (v : Val) :
    dget (dset o k v) k = some v := by
  unfold dset
  by_cases h : o.any (fun p => p.fst == k)
  · rw [if_pos h]
    induction o with
    | nil => simp at h
    | cons p os ih =>
      simp only [List.any_cons, Bool.or_eq_true] at h
      by_cases hp : p.fst == k
      · rw [List.map_cons, if_pos hp, dget_cons, if_pos (by simp)]
      · rw [List.map_cons, if_neg hp, show p = (p.fst, p.snd) from rfl, dget_cons,
          if_neg hp]
        exact ih (h.resolve_left (by simp [hp]))
  · rw [if_neg h, dget_append,
      dget_eq_none_of_not_any (Bool.eq_false_iff.mpr h)]
    simp [dget_cons, Option.orElse]

theorem dget_dset_ne (o : Obj) (k k' : String) (v : Val) (hne : k' ≠ k) :
    dget (dset o k v) k' = dget o k' := by
  have h1 : ¬(k == k') = true := by simpa using fun hkk => hne hkk.symm
  unfold dset
  by_cases h : o.any (fun p => p.fst == k)
  · rw [if_pos h]
    clear h
    induction o with
    | nil => rfl
    | cons p os ih =>
      by_cases hp : p.fst == k
      · have hpk : p.fst = k := by simpa using hp
        rw [List.map_cons, if_pos hp, dget_cons, if_neg h1,
          show p = (p.fst, p.snd) from rfl, dget_cons, hpk, if_neg h1]
        exact ih
      · rw [List.map_cons, if_neg hp, show p = (p.fst, p.snd) from rfl,
          dget_cons, dget_cons]
        by_cases hq : p.fst == k'
        · simp [hq]
        · simp only [if_neg hq]
          exact ih
  · rw [if_neg h, dget_append]
    cases hq : dget o k' with
    | some w => simp [Option.orElse]
    | none =>
      simp only [Option.orElse, Option.none_bind]
      rw [dget_cons, if_neg h1]
      rfl

theorem mem_of_mem_filter_by_vpc {xs : List Obj} {f : Option String} {x : Obj}
    (h : x ∈ filter_by_vpc xs f) : x ∈ xs := by
  cases f with
  | none => exact h
  | some vid => exact List.mem_of_mem_filter h

theorem objItems_map_vdict (xs : List Obj) :
    objItems (.vlist (xs.map .vdict)) = xs := by
  induction xs with
  | nil => rfl
  | cons x rest ih =>
    simp only [List.map_cons, objItems, listItems, List.filterMap_cons] at ih ⊢
    rw [ih]

/-! ### Lemmas about the multi-region gather loop -/

theorem gather_vpcs_all_ok (fetch : String → Except Exc (List Obj))
    (vsOf : String → List Obj) :
    ∀ rs : List String, (∀ r ∈ rs, fetch r = .ok (vsOf r)) →
      gather_vpcs fetch rs = .ok ((rs.map (fun r => stamp_region r (vsOf r))).flatten) := by
  intro rs
  induction rs with
  | nil => intro _; rfl
  | cons r rest ih =>
    intro h
    have hr : fetch r = .ok (vsOf r) := h r (List.mem_cons_self r rest)
    have hrest := ih (fun x hx => h x (List.mem_cons_of_mem r hx))
    simp [gather_vpcs, hr, hrest, Except.map, List.flatten]

theorem gather_vpcs_member_region (fetch : String → Except Exc (List Obj)) :
    ∀ (rs : List String) (out : List Obj), gather_vpcs fetch rs = .ok out →
      ∀ o ∈ out, ∃ r ∈ rs, dget o "region" = some (.vstr r) := by
  intro rs
  induction rs with
  | nil =>
    intro out hout o ho
    simp only [gather_vpcs] at hout
    cases hout
    simp at ho
  | cons r rest ih =>
    intro out hout o ho
    simp only [gather_vpcs] at hout
    cases hfr : fetch r with
    | ok vpcs =>
      rw [hfr] at hout
      cases hrest : gather_vpcs fetch rest with
      | ok racc =>
        rw [hrest] at hout
        simp only [Except.map] at hout
        cases hout
        rcases List.mem_append.mp ho with hstamp | hrec
        · rcases List.mem_map.mp hstamp with ⟨v, _, hv⟩
          exact ⟨r, List.mem_cons_self r rest, hv ▸ dget_dset_self v "region" (.vstr r)⟩
        · rcases ih racc hrest o hrec with ⟨r', hr', hreg⟩
          exact ⟨r', List.mem_cons_of_mem r hr', hreg⟩
      | error e =>
        rw [hrest] at hout
        simp [Except.map] at hout
    | error e =>
      simp only [hfr] at hout
      by_cases hapi : e.isApi
      · rw [if_pos hapi] at hout
        rcases ih out hout o ho with ⟨r', hr', hreg⟩
        exact ⟨r', List.mem_cons_of_mem r hr', hreg⟩
      · rw [if_neg hapi] at hout
        cases hout

/-! ### The projections that do not stamp `region` -/

theorem instance_summary_no_region (inst : Obj) :
    dget (instance_summary inst) "region" = none := rfl

theorem sg_summary_no_region (sg : Obj) :
    dget (sg_summary sg) "region" = none := rfl

theorem table_info_no_region (t : Obj) :
    dget (table_info t) "region" = none := by
  simp only [table_info]
  split <;> split <;> rfl

theorem volume_info_no_region (v : Obj) :
    dget (volume_info v) "region" = none := by
  simp only [volume_info]
  split <;> rfl

theorem share_info_no_region (sh : Obj) :
    dget (share_info sh) "region" = none := by
  simp only [share_info]
  split <;> rfl

theorem snapshot_info_no_region (sn : Obj) :
    dget (snapshot_info sn) "region" = none := by
  simp only [snapshot_info]
  split <;> split <;> split <;> split <;> rfl

/-- On a successful fetch, `find_routing_table_by_name` reduces to the
tie-break policy over the substring-filtered normalized tables. -/
theorem find_routing_table_ok (region vpc_id nm : String) (ts : List Obj) :
    find_routing_table_by_name region vpc_id nm (.ok ts) =
      find_tie_break region vpc_id nm (name_filter (some nm) (ts.map table_info)) := by
  show find_tie_break region vpc_id nm
      (objItems (Val.vlist ((name_filter (some nm) (ts.map table_info)).map Val.vdict))) = _
  rw [objItems_map_vdict]

/-! ### Claim theorems -/

/-- C2: for every exception raised during the remote call,
`list_routing_tables`, `list_volumes`, `list_shares` and `list_snapshots` do
not propagate it but return the envelope
`{error: str(e), region, <resource_plural>: [], count: 0}`, whereas
`list_backup_policies`, `list_backup_policy_jobs` and
`list_backup_policy_plans` propagate the exception unmodified. -/
theorem C2_swallow_vs_propagate (region vpc_id policy_id : String)
    (is_default : Option Bool)
    (nameF attachment_state encryption tag zone_name resource_group_id sort
      replication_role source_volume_id status plan_id source_id : Option String)
    (e : Exc) :
    list_routing_tables region vpc_id is_default nameF (.error e) =
      [("error", .vstr e.msg), ("region", .vstr region),
       ("routing_tables", .vlist []), ("count", .vint 0)] ∧
    list_volumes region attachment_state encryption nameF tag zone_name (.error e) =
      [("error", .vstr e.msg), ("region", .vstr region),
       ("volumes", .vlist []), ("count", .vint 0)] ∧
    list_shares region resource_group_id nameF sort replication_role (.error e) =
      [("error", .vstr e.msg), ("region", .vstr region),
       ("shares", .vlist []), ("count", .vint 0)] ∧
    list_snapshots region nameF source_volume_id resource_group_id sort (.error e) =
      [("error", .vstr e.msg), ("region", .vstr region),
       ("snapshots", .vlist []), ("count", .vint 0)] ∧
    list_backup_policies region resource_group_id nameF tag (.error e) = .error e ∧
    list_backup_policy_jobs policy_id region status plan_id source_id (.error e) = .error e ∧
    list_backup_policy_plans policy_id region nameF (.error e) = .error e :=
  ⟨rfl, rfl, rfl, rfl, rfl, rfl, rfl⟩

/-- The inbound tcp 3389/3389 rule from the private CIDR 10.0.0.0/8, the
spec's test vector for C6. -/
def rdp_internal_rule : Obj :=
  [("direction", .vstr "inbound"), ("protocol", .vstr "tcp"),
   ("port_min", .vint 3389), ("port_max", .vint 3389),
   ("remote", .vdict [("cidr_block", .vstr "10.0.0.0/8")])]

/-- C6: for the single rule `{direction: inbound, protocol: tcp,
port_min: 3389, port_max: 3389, remote: {cidr_block: "10.0.0.0/8"}}`,
`analyze_security_rule_risk` returns `risk_level == "medium"` and exactly one
risk factor, the RDP exposure factor (in particular no
"allows traffic from anywhere" factor). -/
theorem C6_rdp_internal_medium :
    dget (analyze_security_rule_risk rdp_internal_rule) "risk_level" =
      some (.vstr "medium") ∧
    dget (analyze_security_rule_risk rdp_internal_rule) "risk_factors" =
      some (.vlist [.vstr "Exposes RDP (port 3389)"]) :=
  ⟨rfl, rfl⟩

/-- C4 (counterexample): for the policy `{lifecycle_state: "failed"}` and an
empty jobs list, `analyze_backup_policy_health` returns status `"critical"`
(score 100 − 30 − 40 = 30), not `"warning"` as the claim states for every
policy. -/
theorem C4_empty_jobs_counterexample :
    dget (analyze_backup_policy_health [("lifecycle_state", .vstr "failed")] [] none "ts")
        "status" = some (.vstr "critical") ∧
    dget (analyze_backup_policy_health [("lifecycle_state", .vstr "failed")] [] none "ts")
        "status" ≠ some (.vstr "warning") :=
  ⟨rfl, fun h => absurd (Val.vstr.inj (Option.some.inj h)) (by decide)⟩

/-- C4 (amended): with an empty jobs list the issues always contain
"No backup jobs found", and the status is `"warning"` exactly when the
policy's `lifecycle_state` is `"stable"` (score 60); for any other
lifecycle_state the stability deduction stacks and the status is
`"critical"` (score 30). -/
theorem C4_empty_jobs_health (policy : Obj) (d : Option Int) (now : String) :
    (vEqStr (dget policy "lifecycle_state") "stable" = true →
      analyze_backup_policy_health policy [] d now =
        [("health_score", .vint 60),
         ("status", .vstr "warning"),
         ("issues", .vlist [.vstr "No backup jobs found"]),
         ("recommendations", .vlist
           [.vstr "Verify that backup schedules are active and resources are attached"]),
         ("analysis_timestamp", .vstr now)]) ∧
    (vEqStr (dget policy "lifecycle_state") "stable" = false →
      analyze_backup_policy_health policy [] d now =
        [("health_score", .vint 30),
         ("status", .vstr "critical"),
         ("issues", .vlist
           [.vstr ("Policy is in " ++
              pyStrScalar (dgetD policy "lifecycle_state" (.vstr "unknown")) ++ " state"),
            .vstr "No backup jobs found"]),
         ("recommendations", .vlist
           [.vstr "Ensure policy is in stable state",
            .vstr "Verify that backup schedules are active and resources are attached"]),
         ("analysis_timestamp", .vstr now)]) := by
  constructor <;> intro h <;> simp [analyze_backup_policy_health, h]

/-- C4 (witness): the amended statement at the concrete stable policy. -/
theorem C4_empty_jobs_health_witness :
    vEqStr (dget ([("lifecycle_state", Val.vstr "stable")] : Obj) "lifecycle_state")
        "stable" = true ∧
    analyze_backup_policy_health [("lifecycle_state", .vstr "stable")] [] none "ts" =
      [("health_score", .vint 60),
       ("status", .vstr "warning"),
       ("issues", .vlist [.vstr "No backup jobs found"]),
       ("recommendations", .vlist
         [.vstr "Verify that backup schedules are active and resources are attached"]),
       ("analysis_timestamp", .vstr "ts")] :=
  ⟨rfl, (C4_empty_jobs_health [("lifecycle_state", .vstr "stable")] none "ts").1 rfl⟩

/-- C10: a failed fetch makes `find_routing_table_by_name` return
`{error, region, vpc_id, name}` with no `found_count` key, whereas a
successful fetch that matches nothing returns an error shape carrying
`found_count: 0`. -/
theorem C10_lookup_error_vs_not_found (region vpc_id nm : String) (e : Exc)
    (ts : List Obj) :
    (find_routing_table_by_name region vpc_id nm (.error e) =
       [("error", .vstr e.msg), ("region", .vstr region),
        ("vpc_id", .vstr vpc_id), ("name", .vstr nm)] ∧
     dget (find_routing_table_by_name region vpc_id nm (.error e)) "found_count" = none) ∧
    (name_filter (some nm) (ts.map table_info) = [] →
      find_routing_table_by_name region vpc_id nm (.ok ts) =
        [("error", .vstr ("No routing table found with name '" ++ nm ++ "' in VPC " ++ vpc_id)),
         ("region", .vstr region), ("vpc_id", .vstr vpc_id), ("name", .vstr nm),
         ("found_count", .vint 0)] ∧
      dget (find_routing_table_by_name region vpc_id nm (.ok ts)) "found_count" =
        some (.vint 0)) := by
  refine ⟨⟨rfl, rfl⟩, fun h => ?_⟩
  rw [find_routing_table_ok, h]
  exact ⟨rfl, rfl⟩

/-- A routing table whose name does not contain the query `rt-x`. -/
def other_table : Obj := [("name", .vstr "other-table"), ("id", .vstr "9")]

/-- C10 (witness): the two shapes at concrete inputs. -/
theorem C10_lookup_error_vs_not_found_witness :
    dget (find_routing_table_by_name "us-south" "vpc-1" "rt-x"
        (.error (Exc.mk true "boom"))) "found_count" = none ∧
    name_filter (some "rt-x") ([other_table].map table_info) = [] ∧
    dget (find_routing_table_by_name "us-south" "vpc-1" "rt-x" (.ok [other_table]))
        "found_count" = some (.vint 0) :=
  ⟨(C10_lookup_error_vs_not_found "us-south" "vpc-1" "rt-x" (Exc.mk true "boom")
      [other_table]).1.2,
   rfl,
   ((C10_lookup_error_vs_not_found "us-south" "vpc-1" "rt-x" (Exc.mk true "boom")
      [other_table]).2 rfl).2⟩

/-- C5: whenever the substring fetch yields more than one table whose name
equals the query case-sensitively, `find_routing_table_by_name` returns the
ambiguous shape with all exact matches, the first exact match as
`primary_match`, and `found_count` = the number of exact matches. -/
theorem C5_multiple_exact_matches (region vpc_id nm : String) (ts : List Obj)
    (m m2 : Obj) (ms : List Obj)
    (h : exact_name_matches (name_filter (some nm) (ts.map table_info)) nm =
      m :: m2 :: ms) :
    find_routing_table_by_name region vpc_id nm (.ok ts) =
      [("warning", .vstr ("Multiple routing tables found with exact name '" ++ nm ++ "'")),
       ("region", .vstr region),
       ("vpc_id", .vstr vpc_id),
       ("name", .vstr nm),
       ("found_count", .vint (m :: m2 :: ms).length),
       ("matches", .vlist ((m :: m2 :: ms).map .vdict)),
       ("primary_match", .vdict m)] := by
  rw [find_routing_table_ok]
  rcases hX : name_filter (some nm) (ts.map table_info) with _ | ⟨t, rest⟩
  · rw [hX] at h
    simp [exact_name_matches] at h
  · rw [hX] at h
    simp only [find_tie_break]
    rw [h]

/-- The two equally named routing tables of the spec's test vector. -/
def rt_a_1 : Obj := [("name", .vstr "rt-a"), ("id", .vstr "1")]

/-- Second table with the same name and id "2". -/
def rt_a_2 : Obj := [("name", .vstr "rt-a"), ("id", .vstr "2")]

/-- C5 (witness): for tables named `rt-a`/`rt-a` with ids 1 and 2 and query
`rt-a`, the lookup reports `found_count == 2` with `primary_match.id == "1"`. -/
theorem C5_multiple_exact_matches_witness :
    dget (find_routing_table_by_name "us-south" "vpc-1" "rt-a" (.ok [rt_a_1, rt_a_2]))
        "found_count" = some (.vint 2) ∧
    vget (item (find_routing_table_by_name "us-south" "vpc-1" "rt-a" (.ok [rt_a_1, rt_a_2]))
        "primary_match") "id" = some (.vstr "1") := by
  have h := C5_multiple_exact_matches "us-south" "vpc-1" "rt-a" [rt_a_1, rt_a_2]
    (table_info rt_a_1) (table_info rt_a_2) [] rfl
  rw [h]
  exact ⟨rfl, rfl⟩

/-- C3: `get_vpn_server_client_configuration` attempts a UTF-8 decode of the
payload; on success it returns the decoded content tagged
`encoding: "utf-8"`, on failure the base64-encoded raw bytes tagged
`encoding: "base64"`, and the encoding tag is present either way. -/
theorem C3_vpn_config_encoding (sid reg : String) (payload : List Nat) :
    (∀ cs, utf8Decode payload = some cs →
      get_vpn_server_client_configuration sid reg payload =
        [("vpn_server_id", .vstr sid), ("region", .vstr reg),
         ("client_configuration_content", .vstr (String.mk cs)),
         ("metadata", .vdict [("content_type", .vstr "openvpn_configuration"),
                              ("encoding", .vstr "utf-8")])]) ∧
    (utf8Decode payload = none →
      get_vpn_server_client_configuration sid reg payload =
        [("vpn_server_id", .vstr sid), ("region", .vstr reg),
         ("client_configuration_content", .vstr (String.mk (b64encode payload))),
         ("metadata", .vdict [("content_type", .vstr "openvpn_configuration"),
                              ("encoding", .vstr "base64")])]) ∧
    (∃ enc, vget (item (get_vpn_server_client_configuration sid reg payload) "metadata")
        "encoding" = some (.vstr enc) ∧ (enc = "utf-8" ∨ enc = "base64")) := by
  refine ⟨fun cs h => ?_, fun h => ?_, ?_⟩
  · simp [get_vpn_server_client_configuration, h]
  · simp [get_vpn_server_client_configuration, h]
  · cases hdec : utf8Decode payload with
    | some cs =>
      refine ⟨"utf-8", ?_, Or.inl rfl⟩
      simp only [get_vpn_server_client_configuration, hdec]
      rfl
    | none =>
      refine ⟨"base64", ?_, Or.inr rfl⟩
      simp only [get_vpn_server_client_configuration, hdec]
      rfl

/-- C3 (witness): a decodable payload yields the utf-8 tag and content; the
undecodable payload `[0x89, 0x50]` yields the base64 tag with `iVA=`. -/
theorem C3_vpn_config_encoding_witness :
    utf8Decode [104, 105] = some ['h', 'i'] ∧
    get_vpn_server_client_configuration "vpn-server-1" "us-south" [104, 105] =
      [("vpn_server_id", .vstr "vpn-server-1"), ("region", .vstr "us-south"),
       ("client_configuration_content", .vstr "hi"),
       ("metadata", .vdict [("content_type", .vstr "openvpn_configuration"),
                            ("encoding", .vstr "utf-8")])] ∧
    utf8Decode [137, 80] = none ∧
    get_vpn_server_client_configuration "vpn-server-1" "us-south" [137, 80] =
      [("vpn_server_id", .vstr "vpn-server-1"), ("region", .vstr "us-south"),
       ("client_configuration_content", .vstr "iVA="),
       ("metadata", .vdict [("content_type", .vstr "openvpn_configuration"),
                            ("encoding", .vstr "base64")])] := by
  refine ⟨rfl, ?_, rfl, ?_⟩
  · exact (C3_vpn_config_encoding "vpn-server-1" "us-south" [104, 105]).1 ['h', 'i'] rfl
  · exact (C3_vpn_config_encoding "vpn-server-1" "us-south" [137, 80]).2.1 rfl

/-! ### C7: partial multi-region failure in list_vpcs -/

theorem gather_vpcs_one_api_failure (fetch : String → Except Exc (List Obj))
    (vsOf : String → List Obj) (e : Exc) (hapi : e.isApi = true)
    (regsA regsB : List String) (rbad : String)
    (hbad : fetch rbad = .error e)
    (hA : ∀ r ∈ regsA, fetch r = .ok (vsOf r))
    (hB : ∀ r ∈ regsB, fetch r = .ok (vsOf r)) :
    gather_vpcs fetch (regsA ++ rbad :: regsB) =
      .ok (((regsA ++ regsB).map (fun r => stamp_region r (vsOf r))).flatten) := by
  induction regsA with
  | nil =>
    simp only [List.nil_append, gather_vpcs, hbad, hapi, if_pos]
    rw [gather_vpcs_all_ok fetch vsOf regsB hB]
  | cons a as ih =>
    have ha : fetch a = .ok (vsOf a) := hA a (List.mem_cons_self a as)
    have ih' := ih (fun r hr => hA r (List.mem_cons_of_mem a hr))
    simp only [List.cons_append, gather_vpcs, ha, List.append_eq, ih', Except.map,
      List.map_cons, List.flatten_cons]

/-- C7 (counterexample): the per-region `except` clause catches only
`ApiException`; when the one failing region raises any other exception
(`isApi = false`, e.g. a connection error), `list_vpcs` propagates it instead
of aggregating the surviving region. -/
def fetch_conn_reset : String → Except Exc (List Obj) := fun r =>
  if r == "us-east" then .error (Exc.mk false "connection reset")
  else .ok [[("id", Val.vstr "vpc-1")]]

/-- C7 (counterexample): over regions `us-south` (succeeds) and `us-east`
(throws a non-`ApiException`), `list_vpcs` with no region argument raises
instead of returning the `us-south` aggregate. -/
theorem C7_nonapi_failure_counterexample :
    list_vpcs none ["us-south", "us-east"] [] fetch_conn_reset =
      .error (Exc.mk false "connection reset") := rfl

/-- C7 (amended): when the one failing region's listing raises an
`ApiException`, `list_vpcs` with no region argument returns the aggregate of
the N−1 succeeding regions (stamped with their own region), omits the failing
region's contribution, lists all N regions in `regions_checked`, and does not
raise; a non-`ApiException` failure propagates instead (see the
counterexample). -/
theorem C7_partial_region_failure (regsA regsB : List String) (rbad : String)
    (fresh : List String) (fetch : String → Except Exc (List Obj)) (e : Exc)
    (vsOf : String → List Obj)
    (hapi : e.isApi = true) (hbad : fetch rbad = .error e)
    (hA : ∀ r ∈ regsA, fetch r = .ok (vsOf r))
    (hB : ∀ r ∈ regsB, fetch r = .ok (vsOf r)) :
    list_vpcs none (regsA ++ rbad :: regsB) fresh fetch =
      .ok [("vpcs", .vlist
              ((((regsA ++ regsB).map (fun r => stamp_region r (vsOf r))).flatten).map .vdict)),
           ("count", .vint
              (((regsA ++ regsB).map (fun r => stamp_region r (vsOf r))).flatten).length),
           ("regions_checked", .vlist ((regsA ++ rbad :: regsB).map .vstr))] := by
  have hrtc : regions_to_check none (regsA ++ rbad :: regsB) fresh =
      regsA ++ rbad :: regsB := by
    cases regsA <;> rfl
  simp only [list_vpcs, hrtc,
    gather_vpcs_one_api_failure fetch vsOf e hapi regsA regsB rbad hbad hA hB,
    Except.map]

/-- The region-indexed fetch of the C7 witness: `r2` fails with an
`ApiException`, the others succeed. -/
def fetch_one_api_down : String → Except Exc (List Obj) := fun r =>
  if r == "r2" then .error (Exc.mk true "api down")
  else .ok [[("id", Val.vstr ("vpc-" ++ r))]]

/-- C7 (witness): three regions with `r2` down by `ApiException`: the result
aggregates `r1` and `r3`, stamped, with all three regions checked. -/
theorem C7_partial_region_failure_witness :
    list_vpcs none ["r1", "r2", "r3"] [] fetch_one_api_down =
      .ok [("vpcs", .vlist
              [.vdict [("id", .vstr "vpc-r1"), ("region", .vstr "r1")],
               .vdict [("id", .vstr "vpc-r3"), ("region", .vstr "r3")]]),
           ("count", .vint 2),
           ("regions_checked", .vlist [.vstr "r1", .vstr "r2", .vstr "r3"])] := by
  have h := C7_partial_region_failure ["r1"] ["r3"] "r2" [] fetch_one_api_down
    (Exc.mk true "api down") (fun r => [[("id", Val.vstr ("vpc-" ++ r))]])
    rfl rfl
    (by intro r hr; rw [List.mem_singleton] at hr; subst hr; rfl)
    (by intro r hr; rw [List.mem_singleton] at hr; subst hr; rfl)
  exact h.trans rfl

/-! ### C9: defaulted port bounds in the SSH scan -/

theorem ssh_scan_reports (rulesFetch : String → Except Exc (List Obj)) :
    ∀ (l : List Obj) (acc : List Obj), ssh_scan rulesFetch l = .ok acc →
      ∀ sg ∈ l, ∀ rules, rulesFetch (sg_id_str sg) = .ok rules →
      ∀ rule ∈ rules, risky_ssh_rule rule = true →
      ∃ entry ∈ acc, dget entry "security_group_id" = some (item sg "id") := by
  intro l
  induction l with
  | nil =>
    intro acc hacc sg hsg
    simp at hsg
  | cons sg0 rest ih =>
    intro acc hacc sg hsg rules hfr rule hrule hrisky
    simp only [ssh_scan] at hacc
    cases hf : rulesFetch (sg_id_str sg0) with
    | ok rules0 =>
      simp only [hf] at hacc
      cases hrec : ssh_scan rulesFetch rest with
      | ok acc0 =>
        simp only [hrec, Except.map, Except.ok.injEq] at hacc
        subst hacc
        rcases List.mem_cons.mp hsg with rfl | hsg'
        · rw [hfr] at hf
          injection hf with hfeq
          subst hfeq
          have hmem : rule ∈ rules.filter risky_ssh_rule :=
            List.mem_filter.mpr ⟨hrule, hrisky⟩
          have hne : (rules.filter risky_ssh_rule).isEmpty = false := by
            cases hfil : rules.filter risky_ssh_rule with
            | nil => rw [hfil] at hmem; simp at hmem
            | cons _ _ => rfl
          rw [if_neg (by simp [hne])]
          exact ⟨_, List.mem_cons_self _ _, rfl⟩
        · rcases ih acc0 hrec sg hsg' rules hfr rule hrule hrisky with ⟨entry, he, hd⟩
          by_cases hemp : (rules0.filter risky_ssh_rule).isEmpty
          · rw [if_pos hemp]
            exact ⟨entry, he, hd⟩
          · rw [if_neg hemp]
            exact ⟨entry, List.mem_cons_of_mem _ he, hd⟩
      | error e0 =>
        simp [hrec, Except.map] at hacc
    | error e0 =>
      simp only [hf] at hacc
      by_cases hapi : e0.isApi
      · rw [if_pos hapi] at hacc
        rcases List.mem_cons.mp hsg with rfl | hsg'
        · rw [hfr] at hf
          cases hf
        · exact ih acc hacc sg hsg' rules hfr rule hrule hrisky
      · rw [if_neg hapi] at hacc
        cases hacc

/-- C9: a tcp inbound rule lacking `port_min`/`port_max` is treated as
spanning `[0, 65535]`, so with remote CIDR `0.0.0.0/0` it is risky (22 lies
in the defaulted range), and its security group is reported by
`analyze_ssh_security_groups`. -/
theorem C9_defaulted_port_bounds (region : String) (vpc_id : Option String)
    (sgs : List Obj) (rulesFetch : String → Except Exc (List Obj)) (env : Obj)
    (sg : Obj) (rules : List Obj) (rule : Obj) :
    (∀ rule' : Obj, dget rule' "port_min" = none → dget rule' "port_max" = none →
      vEqStr (dget rule' "protocol") "tcp" = true →
      vEqStr (dget rule' "direction") "inbound" = true →
      cidr_is (dgetD rule' "remote" (.vdict [])) "0.0.0.0/0" = true →
      risky_ssh_rule rule' = true) ∧
    (analyze_ssh_security_groups region vpc_id sgs rulesFetch = .ok env →
      sg ∈ filter_by_vpc sgs vpc_id →
      rulesFetch (sg_id_str sg) = .ok rules →
      rule ∈ rules → risky_ssh_rule rule = true →
      ∃ entries, dget env "risky_security_groups" = some (.vlist entries) ∧
        ∃ entry : Obj, Val.vdict entry ∈ entries ∧
          dget entry "security_group_id" = some (item sg "id")) := by
  constructor
  · intro rule' h1 h2 h3 h4 h5
    simp [risky_ssh_rule, dgetInt, h1, h2, h3, h4, h5]
  · intro hok hmem hfr hrule hrisky
    cases hscan : ssh_scan rulesFetch (filter_by_vpc sgs vpc_id) with
    | error e0 =>
      simp only [analyze_ssh_security_groups, hscan, Except.map] at hok
      cases hok
    | ok acc =>
      simp only [analyze_ssh_security_groups, hscan, Except.map, Except.ok.injEq] at hok
      subst hok
      rcases ssh_scan_reports rulesFetch _ acc hscan sg hmem rules hfr rule hrule hrisky
        with ⟨entry, he, hd⟩
      exact ⟨acc.map .vdict, rfl, entry, List.mem_map_of_mem _ he, hd⟩

/-- A tcp inbound rule open to the world with no port bounds at all. -/
def boundless_rule : Obj :=
  [("protocol", .vstr "tcp"), ("direction", .vstr "inbound"),
   ("remote", .vdict [("cidr_block", .vstr "0.0.0.0/0")])]

/-- A security group whose only rule is `boundless_rule`. -/
def web_sg : Obj :=
  [("id", .vstr "sg-1"), ("name", .vstr "web"), ("vpc", .vdict [("id", .vstr "vpc-1")])]

/-- The rules fetch of the C9 witness. -/
def fetch_boundless : String → Except Exc (List Obj) := fun _ => .ok [boundless_rule]

/-- The envelope the C9 witness scan produces. -/
def boundless_env : Obj :=
  [("risky_security_groups", .vlist
      [.vdict [("security_group_id", .vstr "sg-1"),
               ("security_group_name", .vstr "web"),
               ("vpc", .vdict [("id", .vstr "vpc-1")]),
               ("risky_rules", .vlist [.vdict boundless_rule]),
               ("rule_count", .vint 1)]]),
   ("count", .vint 1),
   ("region", .vstr "us-south"),
   ("vpc_filter", .vnull),
   ("analysis_type", .vstr "SSH access from 0.0.0.0/0")]

/-- C9 (witness): the boundless rule is risky and its group is reported. -/
theorem C9_defaulted_port_bounds_witness :
    risky_ssh_rule boundless_rule = true ∧
    (∃ entries, dget boundless_env "risky_security_groups" = some (.vlist entries) ∧
      ∃ entry : Obj, Val.vdict entry ∈ entries ∧
        dget entry "security_group_id" = some (item web_sg "id")) := by
  constructor
  · exact (C9_defaulted_port_bounds "us-south" none [web_sg] fetch_boundless
      boundless_env web_sg [boundless_rule] boundless_rule).1 boundless_rule
      rfl rfl rfl rfl rfl
  · exact (C9_defaulted_port_bounds "us-south" none [web_sg] fetch_boundless
      boundless_env web_sg [boundless_rule] boundless_rule).2 rfl
      (by simp [filter_by_vpc]) rfl (by simp) rfl

/-! ### C8: count equals the length of the filtered list -/

/-- The envelope's `count` equals the length of the list stored under `key`. -/
def count_ok (env : Obj) (key : String) : Prop :=
  ∃ xs, dget env key = some (.vlist xs) ∧ dget env "count" = some (.vint xs.length)

/-- C8: for every modelled query function and every input, the `count` field
of the returned envelope equals the length of the resource list in the same
envelope, after all client-side filtering. -/
theorem C8_count_matches_length :
    (∀ region vpc_id subnets, count_ok (list_subnets region vpc_id subnets) "subnets") ∧
    (∀ region vpc_id instances, count_ok (list_instances region vpc_id instances) "instances") ∧
    (∀ region vpc_id sgs, count_ok (list_security_groups region vpc_id sgs) "security_groups") ∧
    (∀ region vpc_id gws, count_ok (list_public_gateways region vpc_id gws) "public_gateways") ∧
    (∀ region vpc_id isd nm fetched,
      count_ok (list_routing_tables region vpc_id isd nm fetched) "routing_tables") ∧
    (∀ region a b c d f fetched, count_ok (list_volumes region a b c d f fetched) "volumes") ∧
    (∀ region a b c d fetched, count_ok (list_shares region a b c d fetched) "shares") ∧
    (∀ region a b c d fetched, count_ok (list_snapshots region a b c d fetched) "snapshots") ∧
    (∀ ra cached fresh fetch env, list_vpcs ra cached fresh fetch = .ok env →
      count_ok env "vpcs") ∧
    (∀ region a b c fetched env, list_backup_policies region a b c fetched = .ok env →
      count_ok env "backup_policies") ∧
    (∀ pid region a b c fetched env,
      list_backup_policy_jobs pid region a b c fetched = .ok env → count_ok env "jobs") ∧
    (∀ pid region a fetched env,
      list_backup_policy_plans pid region a fetched = .ok env → count_ok env "plans") := by
  refine ⟨?_, ?_, ?_, ?_, ?_, ?_, ?_, ?_, ?_, ?_, ?_, ?_⟩
  · intro region vpc_id subnets
    refine ⟨_, rfl, ?_⟩
    conv_rhs => rw [List.length_map]
    rfl
  · intro region vpc_id instances
    refine ⟨_, rfl, ?_⟩
    conv_rhs => rw [List.length_map]
    rfl
  · intro region vpc_id sgs
    refine ⟨_, rfl, ?_⟩
    conv_rhs => rw [List.length_map]
    rfl
  · intro region vpc_id gws
    refine ⟨_, rfl, ?_⟩
    conv_rhs => rw [List.length_map]
    rfl
  · intro region vpc_id isd nm fetched
    cases fetched with
    | error e => exact ⟨[], rfl, rfl⟩
    | ok ts =>
      refine ⟨_, rfl, ?_⟩
      conv_rhs => rw [List.length_map]
      rfl
  · intro region a b c d f fetched
    cases fetched with
    | error e => exact ⟨[], rfl, rfl⟩
    | ok vs =>
      refine ⟨_, rfl, ?_⟩
      conv_rhs => rw [List.length_map]
      rfl
  · intro region a b c d fetched
    cases fetched with
    | error e => exact ⟨[], rfl, rfl⟩
    | ok ss =>
      refine ⟨_, rfl, ?_⟩
      conv_rhs => rw [List.length_map]
      rfl
  · intro region a b c d fetched
    cases fetched with
    | error e => exact ⟨[], rfl, rfl⟩
    | ok ss =>
      refine ⟨_, rfl, ?_⟩
      conv_rhs => rw [List.length_map]
      rfl
  · intro ra cached fresh fetch env h
    cases hg : gather_vpcs fetch (regions_to_check ra cached fresh) with
    | error e =>
      simp only [list_vpcs, hg, Except.map] at h
      cases h
    | ok all_vpcs =>
      simp only [list_vpcs, hg, Except.map, Except.ok.injEq] at h
      subst h
      exact ⟨_, rfl, by simp only [List.length_map]; rfl⟩
  · intro region a b c fetched env h
    cases fetched with
    | error e => cases h
    | ok ps =>
      cases h
      exact ⟨_, rfl, by simp only [List.length_map]; rfl⟩
  · intro pid region a b c fetched env h
    cases fetched with
    | error e => cases h
    | ok js =>
      cases h
      exact ⟨_, rfl, by simp only [List.length_map]; rfl⟩
  · intro pid region a fetched env h
    cases fetched with
    | error e => cases h
    | ok ps =>
      cases h
      exact ⟨_, rfl, by simp only [List.length_map]; rfl⟩

/-- C8 (witness): the invariant at concrete inputs, one swallowing lister and
one `Except`-returning lister. -/
theorem C8_count_matches_length_witness :
    count_ok (list_subnets "us-south" none [[("id", Val.vstr "s1")]]) "subnets" ∧
    count_ok [("vpcs", Val.vlist []), ("count", Val.vint 0),
              ("regions_checked", Val.vlist [Val.vstr "us-south"])] "vpcs" := by
  have h := C8_count_matches_length
  exact ⟨h.1 "us-south" none [[("id", Val.vstr "s1")]],
         h.2.2.2.2.2.2.2.2.1 (some "us-south") [] [] (fun _ => .ok []) _ rfl⟩

/-! ### C1: which listers stamp `region` onto their records -/

/-- Every record under `key` is a dict carrying `region` equal to `region`. -/
def records_stamped (env : Obj) (key region : String) : Prop :=
  ∃ vs, dget env key = some (.vlist vs) ∧
    ∀ v ∈ vs, ∃ o : Obj, v = Val.vdict o ∧ dget o "region" = some (.vstr region)

/-- Every record under `key` is a dict with no `region` key at all. -/
def records_without_region (env : Obj) (key : String) : Prop :=
  ∃ vs, dget env key = some (.vlist vs) ∧
    ∀ v ∈ vs, ∃ o : Obj, v = Val.vdict o ∧ dget o "region" = none

theorem no_region_of_map {X : List Obj} (proj : Obj → Obj)
    (hproj : ∀ x, dget (proj x) "region" = none) :
    ∀ v ∈ (X.map proj).map Val.vdict, ∃ o : Obj, v = Val.vdict o ∧ dget o "region" = none := by
  intro v hv
  rcases List.mem_map.mp hv with ⟨o, ho, rfl⟩
  rcases List.mem_map.mp ho with ⟨x, _, rfl⟩
  exact ⟨proj x, rfl, hproj x⟩

theorem mem_of_mem_name_filter {nm : Option String} {X : List Obj} {o : Obj}
    (h : o ∈ name_filter nm X) : o ∈ X := by
  cases nm with
  | none => exact h
  | some n =>
    by_cases he : n.isEmpty
    · simpa [name_filter, he] using h
    · simp only [name_filter, if_neg he] at h
      exact List.mem_of_mem_filter h

theorem enhance_subnet_region (region : String) (s : Obj) :
    dget (enhance_subnet region s) "region" = some (.vstr region) := by
  unfold enhance_subnet
  rw [dget_dset_ne _ _ _ _ (by decide), dget_dset_ne _ _ _ _ (by decide), dget_dset_self]

/-- C1 (counterexample): concrete records returned by `list_instances` and
`list_volumes` carry no `region` key (only the envelope does), refuting the
claim that every list operation stamps `region` onto each record. -/
def sample_instance : Obj :=
  [("id", .vstr "inst-1"), ("name", .vstr "vm-1"), ("status", .vstr "running"),
   ("profile", .vdict [("name", .vstr "bx2-2x8")]),
   ("vpc", .vdict [("id", .vstr "vpc-1")]),
   ("zone", .vdict [("name", .vstr "us-south-1")]),
   ("primary_network_interface", .vdict
     [("id", .vstr "eth0"), ("primary_ipv4_address", .vstr "10.0.0.4")]),
   ("created_at", .vstr "2025-01-01T00:00:00Z")]

/-- A fully populated raw volume record. -/
def sample_volume : Obj :=
  [("id", .vstr "vol-1"), ("name", .vstr "data"), ("status", .vstr "available"),
   ("capacity", .vint 100), ("iops", .vint 3000),
   ("profile", .vdict [("name", .vstr "general-purpose")]),
   ("zone", .vdict [("name", .vstr "us-south-1")]),
   ("created_at", .vstr "2025-01-01T00:00:00Z")]

/-- C1 (counterexample): the single record each of `list_instances` and
`list_volumes` returns for a fully populated input lacks the `region` key. -/
theorem C1_region_stamp_counterexample :
    dget (list_instances "us-south" none [sample_instance]) "instances" =
      some (.vlist [.vdict (instance_summary sample_instance)]) ∧
    dget (instance_summary sample_instance) "region" = none ∧
    dget (list_volumes "us-south" none none none none none (.ok [sample_volume]))
        "volumes" = some (.vlist [.vdict (volume_info sample_volume)]) ∧
    dget (volume_info sample_volume) "region" = none :=
  ⟨rfl, rfl, rfl, rfl⟩

/-- C1 (amended): `list_vpcs` stamps each record with the region it was
fetched from, and `list_subnets`, `list_backup_policies`,
`list_backup_policy_jobs` and `list_backup_policy_plans` stamp each record
with the requested region; but `list_instances`, `list_security_groups`,
`list_routing_tables`, `list_volumes`, `list_shares` and `list_snapshots`
return records without any `region` key, and `list_public_gateways` passes
records through unstamped (they carry `region` only if the remote payload
already did).  `region` is otherwise carried by the envelope, not the
records. -/
theorem C1_region_stamping :
    (∀ ra cached fresh fetch env, list_vpcs ra cached fresh fetch = .ok env →
      ∃ vs, dget env "vpcs" = some (.vlist vs) ∧
        ∀ v ∈ vs, ∃ o : Obj, v = Val.vdict o ∧
          ∃ r ∈ regions_to_check ra cached fresh, dget o "region" = some (.vstr r)) ∧
    (∀ region vpc_id subnets,
      records_stamped (list_subnets region vpc_id subnets) "subnets" region) ∧
    (∀ region a b c ps env, list_backup_policies region a b c (.ok ps) = .ok env →
      records_stamped env "backup_policies" region) ∧
    (∀ pid region a b c js env,
      list_backup_policy_jobs pid region a b c (.ok js) = .ok env →
      records_stamped env "jobs" region) ∧
    (∀ pid region a js env, list_backup_policy_plans pid region a (.ok js) = .ok env →
      records_stamped env "plans" region) ∧
    (∀ region vpc_id instances,
      records_without_region (list_instances region vpc_id instances) "instances") ∧
    (∀ region vpc_id sgs,
      records_without_region (list_security_groups region vpc_id sgs) "security_groups") ∧
    (∀ region vpc_id gws, (∀ g ∈ gws, dget g "region" = none) →
      records_without_region (list_public_gateways region vpc_id gws) "public_gateways") ∧
    (∀ region vpc_id isd nm ts,
      records_without_region (list_routing_tables region vpc_id isd nm (.ok ts))
        "routing_tables") ∧
    (∀ region a b c d f vs,
      records_without_region (list_volumes region a b c d f (.ok vs)) "volumes") ∧
    (∀ region a b c d ss,
      records_without_region (list_shares region a b c d (.ok ss)) "shares") ∧
    (∀ region a b c d ss,
      records_without_region (list_snapshots region a b c d (.ok ss)) "snapshots") := by
  refine ⟨?_, ?_, ?_, ?_, ?_, ?_, ?_, ?_, ?_, ?_, ?_, ?_⟩
  · intro ra cached fresh fetch env h
    cases hg : gather_vpcs fetch (regions_to_check ra cached fresh) with
    | error e =>
      simp only [list_vpcs, hg, Except.map] at h
      cases h
    | ok all_vpcs =>
      simp only [list_vpcs, hg, Except.map, Except.ok.injEq] at h
      subst h
      refine ⟨_, rfl, ?_⟩
      intro v hv
      rcases List.mem_map.mp hv with ⟨o, ho, rfl⟩
      exact ⟨o, rfl, gather_vpcs_member_region fetch _ _ hg o ho⟩
  · intro region vpc_id subnets
    refine ⟨_, rfl, ?_⟩
    intro v hv
    rcases List.mem_map.mp hv with ⟨o, ho, rfl⟩
    rcases List.mem_map.mp ho with ⟨s, _, rfl⟩
    exact ⟨_, rfl, enhance_subnet_region region s⟩
  · intro region a b c ps env h
    cases h
    refine ⟨_, rfl, ?_⟩
    intro v hv
    rcases List.mem_map.mp hv with ⟨o, ho, rfl⟩
    rcases List.mem_map.mp ho with ⟨p, _, rfl⟩
    exact ⟨_, rfl, dget_dset_self p "region" (.vstr region)⟩
  · intro pid region a b c js env h
    cases h
    refine ⟨_, rfl, ?_⟩
    intro v hv
    rcases List.mem_map.mp hv with ⟨o, ho, rfl⟩
    rcases List.mem_map.mp ho with ⟨j, _, rfl⟩
    refine ⟨_, rfl, ?_⟩
    rw [dget_dset_ne _ _ _ _ (by decide), dget_dset_self]
  · intro pid region a js env h
    cases h
    refine ⟨_, rfl, ?_⟩
    intro v hv
    rcases List.mem_map.mp hv with ⟨o, ho, rfl⟩
    rcases List.mem_map.mp ho with ⟨j, _, rfl⟩
    refine ⟨_, rfl, ?_⟩
    rw [dget_dset_ne _ _ _ _ (by decide), dget_dset_self]
  · intro region vpc_id instances
    exact ⟨_, rfl, no_region_of_map instance_summary instance_summary_no_region⟩
  · intro region vpc_id sgs
    exact ⟨_, rfl, no_region_of_map sg_summary sg_summary_no_region⟩
  · intro region vpc_id gws hg
    refine ⟨_, rfl, ?_⟩
    intro v hv
    rcases List.mem_map.mp hv with ⟨o, ho, rfl⟩
    exact ⟨o, rfl, hg o (mem_of_mem_filter_by_vpc ho)⟩
  · intro region vpc_id isd nm ts
    refine ⟨_, rfl, ?_⟩
    intro v hv
    rcases List.mem_map.mp hv with ⟨o, ho, rfl⟩
    rcases List.mem_map.mp (mem_of_mem_name_filter ho) with ⟨t, _, rfl⟩
    exact ⟨_, rfl, table_info_no_region t⟩
  · intro region a b c d f vs
    exact ⟨_, rfl, no_region_of_map volume_info volume_info_no_region⟩
  · intro region a b c d ss
    exact ⟨_, rfl, no_region_of_map share_info share_info_no_region⟩
  · intro region a b c d ss
    exact ⟨_, rfl, no_region_of_map snapshot_info snapshot_info_no_region⟩

/-- C1 (witness): the stamping conjuncts at concrete inputs — a one-region
`list_vpcs` success and a one-subnet `list_subnets` call. -/
theorem C1_region_stamping_witness :
    (∃ vs, dget [("vpcs", Val.vlist [Val.vdict [("id", Val.vstr "v1"), ("region", Val.vstr "r1")]]),
                 ("count", Val.vint 1),
                 ("regions_checked", Val.vlist [Val.vstr "r1"])] "vpcs" = some (.vlist vs) ∧
      ∀ v ∈ vs, ∃ o : Obj, v = Val.vdict o ∧
        ∃ r ∈ regions_to_check (some "r1") [] [], dget o "region" = some (.vstr r)) ∧
    records_stamped (list_subnets "r1" none [[("id", Val.vstr "s1")]]) "subnets" "r1" :=
  ⟨C1_region_stamping.1 (some "r1") [] [] (fun _ => .ok [[("id", Val.vstr "v1")]]) _ rfl,
   C1_region_stamping.2.1 "r1" none [[("id", Val.vstr "s1")]]⟩

end VpcMcp
